import Mathlib

/-!
Verification of the payment-readiness gating logic of the polar repository
fragment: the Organization model methods `is_payment_ready` and
`get_missing_steps`, the payment-status endpoint, the checkout-creation
guard, the dashboard setup banner, and the checkout not-ready banner.

The Python and TypeScript sources are shallowly embedded as Lean
definitions: ORM entities become structures, enum fields become inductive
types, optional fields become `Option`, JSONB dictionaries become
association lists (where Python truthiness of a dictionary is non-emptiness
of the list), and the stateless request handler becomes a pure function on
an explicit request state.
-/

/-- Status enum of the Organization model, values CREATED,
ONBOARDING_STARTED, UNDER_REVIEW, DENIED, ACTIVE. -/
inductive OrganizationStatus where
  | CREATED
  | ONBOARDING_STARTED
  | UNDER_REVIEW
  | DENIED
  | ACTIVE
deriving DecidableEq, Repr

/-- Status enum of the Account model, same value set as the organization
status enum. -/
inductive AccountStatus where
  | CREATED
  | ONBOARDING_STARTED
  | UNDER_REVIEW
  | DENIED
  | ACTIVE
deriving DecidableEq, Repr

/-- Identity verification status enum of the User model, values
unverified, pending, verified, failed. -/
inductive IdentityVerificationStatus where
  | unverified
  | pending
  | verified
  | failed
deriving DecidableEq, Repr

/-- Account model. The boolean flags mirror the fields listed for the
model. The body of the method is_payout_ready() lives in
/server/polar/models/account.py, which is not among the sources; its
result is carried as the abstract field payout_ready. -/
structure Account where
  status : AccountStatus
  is_details_submitted : Bool
  is_charges_enabled : Bool
  is_payouts_enabled : Bool
  payout_ready : Bool
deriving DecidableEq, Repr

/-- Modelled from the spec: the Account method is_payout_ready() is
described only as a method checking whether the account is ready for
payouts; its implementation is not among the sources, so it returns the
abstract payout_ready field. -/
def Account.is_payout_ready (a : Account) : Bool :=
  a.payout_ready

/-- Organization model: status enum, details JSONB dictionary (an
association list here; the Python truthiness test `not self.details` is
emptiness of the list), the details submission timestamp, the foreign key
to the account and the account relationship itself. -/
structure Organization where
  status : OrganizationStatus
  details : List (String × String)
  details_submitted_at : Option Nat
  account_id : Option Nat
  account : Option Account
deriving DecidableEq, Repr

/-- User model, with the identity verification status enum field. -/
structure User where
  identity_verification_status : IdentityVerificationStatus
deriving DecidableEq, Repr

/-- Embeds Organization.is_payment_ready from the design document:
sequential early-return checks on status, details, details_submitted_at,
account_id together with the account relationship, and the payout
readiness of the account. -/
def Organization.is_payment_ready (org : Organization) : Bool :=
  if org.status ≠ OrganizationStatus.ACTIVE then
    false
  else if org.details = [] ∨ org.details_submitted_at = none then
    false
  else
    match org.account_id, org.account with
    | some _, some a =>
        if ¬ a.is_payout_ready then false else true
    | _, _ => false

/-- Embeds Organization.get_missing_steps from the design document: the
list is built by appending organization_details when details are missing,
then payout_account when there is no account (or payout_account_activation
when an account exists but is not payout ready), then
identity_verification when the user is not verified. The Python parameter
is a non-optional User, which is always truthy, so the `user and`
conjunct of the last test is the identity. -/
def get_missing_steps (org : Organization) (user : User) : List String :=
  (if org.details = [] ∨ org.details_submitted_at = none then
      ["organization_details"]
    else []) ++
  (match org.account_id, org.account with
    | some _, some a =>
        if ¬ a.is_payout_ready then ["payout_account_activation"] else []
    | _, _ => ["payout_account"]) ++
  (if user.identity_verification_status ≠ IdentityVerificationStatus.verified then
      ["identity_verification"]
    else [])

/-- Response schema OrganizationPaymentStatus of the payment-status
endpoint. -/
structure OrganizationPaymentStatus where
  payment_ready : Bool
  missing_steps : List String
  organization_status : OrganizationStatus
  account_status : Option AccountStatus
  identity_verification_status : IdentityVerificationStatus
deriving DecidableEq, Repr

/-- Embeds the endpoint handler get_organization_payment_status: it
computes the missing steps for the authenticated subject and returns the
response schema, with account_status taken from the account when one
exists and None otherwise. -/
def get_organization_payment_status (organization : Organization)
    (user : User) : OrganizationPaymentStatus :=
  { payment_ready := organization.is_payment_ready
    missing_steps := get_missing_steps organization user
    organization_status := organization.status
    account_status :=
      match organization.account with
      | some a => some a.status
      | none => none
    identity_verification_status := user.identity_verification_status }

/-- The entity state visible to one payment-status request: the permitted
organization and the authenticated user. -/
structure RequestState where
  organization : Organization
  user : User
deriving DecidableEq, Repr

/-- The payment-status request handler as a state-passing function. The
handler body only reads entity fields and constructs the response schema;
it issues no session writes, so the request state passes through
unchanged. -/
def handle_payment_status_request (st : RequestState) :
    OrganizationPaymentStatus × RequestState :=
  (get_organization_payment_status st.organization st.user, st)

/-- Product model fragment: only the organization relationship is
consulted by the checkout guard. -/
structure Product where
  organization : Organization
deriving DecidableEq, Repr

/-- Checkout entity, held abstract: the guard under verification never
inspects it. -/
structure Checkout where
  id : Nat
deriving DecidableEq, Repr

/-- Error raised by the checkout service when creation is refused. -/
inductive CheckoutError where
  | CheckoutNotAllowed : String → CheckoutError
deriving DecidableEq, Repr

/-- Embeds the modified create_checkout of the checkout service: the
payment-readiness guard raises CheckoutNotAllowed before anything else
runs; the rest of the existing checkout logic is not among the sources
and is abstracted as the continuation rest, entered only when the guard
passes. -/
def create_checkout (product : Product)
    (rest : Unit → Except CheckoutError Checkout) :
    Except CheckoutError Checkout :=
  if ¬ product.organization.is_payment_ready then
    Except.error
      (CheckoutError.CheckoutNotAllowed
        "Organization is not ready to accept payments")
  else
    rest ()

/-- One step row of the implemented dashboard OrganizationSetupBanner:
its key and its computed completed flag. -/
structure SetupStep where
  key : String
  completed : Bool
deriving DecidableEq, Repr

/-- Embeds the steps array of the implemented OrganizationSetupBanner
component: three steps whose completed flag tests whether missing_steps
includes the step key. -/
def bannerSteps (ps : OrganizationPaymentStatus) : List SetupStep :=
  [ { key := "create_product"
      completed := ! ps.missing_steps.contains "create_product" }
  , { key := "integrate_polar"
      completed := ! ps.missing_steps.contains "integrate_polar" }
  , { key := "complete_account_setup"
      completed := ! ps.missing_steps.contains "complete_account_setup" } ]

/-- Embeds currentStepIndex of the banner component:
steps.findIndex(step => !step.completed), which is -1 in JavaScript when
every step is completed. -/
def currentStepIndex (steps : List SetupStep) : Int :=
  match steps.findIdx? (fun s => ! s.completed) with
  | some i => Int.ofNat i
  | none => -1

/-- Render guard of the implemented banner: null is rendered when the
payment status reports readiness (the loading and missing-data guards of
the fetch hook are outside the embedded logic). -/
def setupBannerVisible (ps : OrganizationPaymentStatus) : Bool :=
  ! ps.payment_ready

/-- The strict comparison (checkout as any).organizationPaymentReady ===
false of the Checkout component, with the possibly-absent flag as an
Option. -/
def organizationPaymentReadyIsFalse (flag : Option Bool) : Bool :=
  flag == some false

/-- Abstraction of the Checkout component output retained for
verification: whether the OrganizationNotReadyBanner occurs in the
output and whether the CheckoutForm is rendered with disabled set. -/
structure CheckoutRender where
  hasNotReadyBanner : Bool
  formDisabled : Bool
deriving DecidableEq, Repr

/-- Embeds the Checkout component: the embedded branch renders the
banner under the strict flag comparison and passes the same comparison
as the disabled prop of CheckoutForm; the non-embedded branch assigns
the banner variable under the same comparison and passes the same
disabled prop. -/
def renderCheckout (embed : Bool) (flag : Option Bool) : CheckoutRender :=
  if embed then
    { hasNotReadyBanner := organizationPaymentReadyIsFalse flag
      formDisabled := organizationPaymentReadyIsFalse flag }
  else
    { hasNotReadyBanner := organizationPaymentReadyIsFalse flag
      formDisabled := organizationPaymentReadyIsFalse flag }

/-- A payout-ready account, used as concrete witness data. -/
def accountReady : Account :=
  { status := AccountStatus.ACTIVE
    is_details_submitted := true
    is_charges_enabled := true
    is_payouts_enabled := true
    payout_ready := true }

/-- A fully set up, active organization, used as concrete witness data. -/
def orgReady : Organization :=
  { status := OrganizationStatus.ACTIVE
    details := [("name", "Acme")]
    details_submitted_at := some 1
    account_id := some 1
    account := some accountReady }

/-- An organization with every setup step done but status still CREATED,
used as concrete witness data. -/
def orgCreated : Organization :=
  { status := OrganizationStatus.CREATED
    details := [("name", "Acme")]
    details_submitted_at := some 1
    account_id := some 1
    account := some accountReady }

/-- A verified user, used as concrete witness data. -/
def userVerified : User :=
  { identity_verification_status := IdentityVerificationStatus.verified }

/-- An unverified user, used as concrete witness data. -/
def userUnverified : User :=
  { identity_verification_status := IdentityVerificationStatus.unverified }

/-- A concrete continuation standing for the rest of the checkout logic. -/
def restOk : Unit → Except CheckoutError Checkout :=
  fun _ => Except.ok { id := 1 }

/-- A second concrete continuation, distinguishable from the first. -/
def restOk2 : Unit → Except CheckoutError Checkout :=
  fun _ => Except.ok { id := 2 }

/-- Product whose organization is payment ready, used as witness data. -/
def productReady : Product :=
  { organization := orgReady }

/-- Product whose organization is not payment ready, used as witness
data. -/
def productCreated : Product :=
  { organization := orgCreated }

/-- C1: is_payment_ready(org) returns true if and only if org.status is
ACTIVE, org.details is non-empty, org.details_submitted_at is set, org
has an account (both account_id and the account object), and the account
method is_payout_ready() returns true. -/
theorem is_payment_ready_iff_spec (org : Organization) :
    org.is_payment_ready = true ↔
      (org.status = OrganizationStatus.ACTIVE ∧ org.details ≠ [] ∧
        org.details_submitted_at ≠ none ∧ org.account_id ≠ none ∧
        ∃ a, org.account = some a ∧ a.is_payout_ready = true) := by
  obtain ⟨ost, d, ds, aid, acc⟩ := org
  cases aid <;> cases acc <;>
    simp [Organization.is_payment_ready] <;> tauto

/-- C2: when the target organization of the product is not payment
ready, create_checkout fails with CheckoutNotAllowed and its result does
not depend on the rest of the checkout logic (no later step runs); when
the organization is payment ready, the guard raises nothing and the rest
of the logic runs. -/
theorem create_checkout_blocks_unready (p : Product)
    (rest rest2 : Unit → Except CheckoutError Checkout) :
    (p.organization.is_payment_ready = false →
      create_checkout p rest =
        Except.error (CheckoutError.CheckoutNotAllowed
          "Organization is not ready to accept payments") ∧
      create_checkout p rest = create_checkout p rest2) ∧
    (p.organization.is_payment_ready = true →
      create_checkout p rest = rest ()) := by
  constructor <;> intro h <;> simp [create_checkout, h]

/-- Witness for C2: a concrete organization with status CREATED is
blocked, and a concrete fully ready one reaches the rest of the checkout
logic. -/
theorem create_checkout_blocks_unready_witness :
    (productCreated.organization.is_payment_ready = false ∧
      create_checkout productCreated restOk =
        Except.error (CheckoutError.CheckoutNotAllowed
          "Organization is not ready to accept payments")) ∧
    (productReady.organization.is_payment_ready = true ∧
      create_checkout productReady restOk = restOk ()) :=
  ⟨⟨by decide,
      ((create_checkout_blocks_unready productCreated restOk restOk2).1
        (by decide)).1⟩,
    ⟨by decide,
      (create_checkout_blocks_unready productReady restOk restOk2).2
        (by decide)⟩⟩

/-- C3: get_missing_steps returns its elements in the fixed order
organization_details, payout_account, payout_account_activation,
identity_verification, each at most once and with no other string (the
sublist part); payout_account appears exactly when the organization has
no account (missing account_id or account object), and
payout_account_activation exactly when an account exists but is not
payout ready, so at most one of the two appears and neither does when
the account is payout ready. -/
theorem get_missing_steps_order_and_payout_steps (org : Organization)
    (user : User) :
    List.Sublist (get_missing_steps org user)
      ["organization_details", "payout_account", "payout_account_activation",
        "identity_verification"]
    ∧ ("payout_account" ∈ get_missing_steps org user ↔
        (org.account_id = none ∨ org.account = none))
    ∧ ("payout_account_activation" ∈ get_missing_steps org user ↔
        (org.account_id ≠ none ∧
          ∃ a, org.account = some a ∧ a.is_payout_ready = false)) := by
  obtain ⟨ost, d, ds, aid, acc⟩ := org
  obtain ⟨ivs⟩ := user
  cases aid <;> cases acc <;>
    simp [get_missing_steps] <;> split_ifs <;> simp_all

/-- C4: the result of get_missing_steps contains identity_verification
if and only if the identity verification status of the user is not
verified. -/
theorem get_missing_steps_identity_verification_iff (org : Organization)
    (user : User) :
    "identity_verification" ∈ get_missing_steps org user ↔
      user.identity_verification_status ≠
        IdentityVerificationStatus.verified := by
  obtain ⟨ost, d, ds, aid, acc⟩ := org
  obtain ⟨ivs⟩ := user
  cases aid <;> cases acc <;> simp [get_missing_steps]

/-- C5: the payment-status endpoint returns exactly the computed
values: payment_ready is is_payment_ready of the organization,
missing_steps is get_missing_steps for the requesting user,
organization_status is the raw organization status enum,
identity_verification_status is the raw user status enum, and
account_status is the account status when an account exists and None
otherwise. -/
theorem get_organization_payment_status_fields (org : Organization)
    (user : User) :
    (get_organization_payment_status org user).payment_ready =
      org.is_payment_ready ∧
    (get_organization_payment_status org user).missing_steps =
      get_missing_steps org user ∧
    (get_organization_payment_status org user).organization_status =
      org.status ∧
    (get_organization_payment_status org user).account_status =
      Option.map Account.status org.account ∧
    (get_organization_payment_status org user).identity_verification_status =
      user.identity_verification_status := by
  obtain ⟨ost, d, ds, aid, acc⟩ := org
  cases acc <;> simp [get_organization_payment_status]

/-- C6: the payment-status endpoint is a pure read: handling a request
leaves the request state (organization, account and user entities)
unchanged, and handling the same request again on the resulting state
yields the same response. -/
theorem handle_payment_status_request_pure_read (st : RequestState) :
    (handle_payment_status_request st).2 = st ∧
    (handle_payment_status_request st).1 =
      (handle_payment_status_request (handle_payment_status_request st).2).1 :=
  ⟨rfl, rfl⟩

/-- C7: when is_payment_ready holds, get_missing_steps contains none of
organization_details, payout_account, payout_account_activation, for any
user: the only step that can still be missing for a payment-ready
organization is identity_verification, since is_payment_ready never
consults the user. -/
theorem payment_ready_leaves_only_identity_step (org : Organization)
    (user : User) (h : org.is_payment_ready = true) :
    "organization_details" ∉ get_missing_steps org user ∧
    "payout_account" ∉ get_missing_steps org user ∧
    "payout_account_activation" ∉ get_missing_steps org user := by
  obtain ⟨ost, d, ds, aid, acc⟩ := org
  cases aid <;> cases acc <;>
    simp [Organization.is_payment_ready] at h <;>
    simp_all [get_missing_steps]

/-- Witness for C7: the concrete ready organization with an unverified
user. -/
theorem payment_ready_leaves_only_identity_step_witness :
    orgReady.is_payment_ready = true ∧
    ("organization_details" ∉ get_missing_steps orgReady userUnverified ∧
      "payout_account" ∉ get_missing_steps orgReady userUnverified ∧
      "payout_account_activation" ∉ get_missing_steps orgReady userUnverified) :=
  ⟨by decide,
    payment_ready_leaves_only_identity_step orgReady userUnverified
      (by decide)⟩

/-- C8: an empty missing-steps list does not imply payment readiness:
for the concrete organization whose details, account and payout
readiness are all in place but whose status is still CREATED, and a
verified user, get_missing_steps is empty while is_payment_ready is
false, because get_missing_steps never checks the organization status. -/
theorem empty_missing_steps_not_payment_ready :
    get_missing_steps orgCreated userVerified = [] ∧
    userVerified.identity_verification_status =
      IdentityVerificationStatus.verified ∧
    orgCreated.is_payment_ready = false := by
  decide

/-- C9: the step keys tested by the implemented dashboard banner are
disjoint from everything get_missing_steps can emit, so on every payment
status produced by the endpoint all three banner steps are completed and
the first-incomplete-step index is -1. -/
theorem banner_steps_always_completed (org : Organization) (user : User) :
    ((bannerSteps (get_organization_payment_status org user)).all
      fun s => s.completed) = true ∧
    currentStepIndex (bannerSteps (get_organization_payment_status org user)) =
      -1 := by
  obtain ⟨ost, d, ds, aid, acc⟩ := org
  obtain ⟨ivs⟩ := user
  cases aid <;> cases acc <;>
    simp [get_organization_payment_status, get_missing_steps, bannerSteps,
      currentStepIndex]

/-- C10: in both the embedded and the non-embedded layout, when the
organization-payment-ready flag of the checkout is strictly false the
output contains the OrganizationNotReadyBanner and the checkout form is
rendered disabled; when the flag is not false, no such banner is
rendered. -/
theorem checkout_render_not_ready_banner (embed : Bool)
    (flag : Option Bool) :
    (flag = some false →
      (renderCheckout embed flag).hasNotReadyBanner = true ∧
      (renderCheckout embed flag).formDisabled = true) ∧
    (flag ≠ some false →
      (renderCheckout embed flag).hasNotReadyBanner = false) := by
  cases embed <;> rcases flag with _ | (_ | _) <;>
    simp [renderCheckout, organizationPaymentReadyIsFalse]

/-- Witness for C10: the embedded layout with the flag false shows the
banner and disables the form; the non-embedded layout with the flag
absent shows no banner. -/
theorem checkout_render_not_ready_banner_witness :
    ((some false : Option Bool) = some false ∧
      (renderCheckout true (some false)).hasNotReadyBanner = true ∧
      (renderCheckout true (some false)).formDisabled = true) ∧
    ((none : Option Bool) ≠ some false ∧
      (renderCheckout false none).hasNotReadyBanner = false) :=
  ⟨⟨rfl, (checkout_render_not_ready_banner true (some false)).1 rfl⟩,
    ⟨by decide, (checkout_render_not_ready_banner false none).2 (by decide)⟩⟩
